import Mathlib

/-!
Verification of the IF482 telegram generator (`src/if482.cpp`).

We shallow-embed the telegram encoder `IF482_Out`, the scheduler task
`if482_loop` (its one-time shot-offset computation and its steady-state
pulse-to-transmission loop), the interrupt hand-off `IF482IRQ`, and the
initializer `if482_init`.

Modelling conventions:
* Bytes are `Nat` ASCII codes (so the CR terminator is the byte `13`).
* `snprintf(dst, n, ...)` truncates its formatted output to `n - 1`
  characters; we model the two buffers `buf[14]` and `out[17]` with
  `List.take 13` and `List.take 16` on the ideal formatted byte sequence.
* The TimeLib sync status enum `{timeNotSet, timeNeedsSync, timeSet}` is
  embedded as the underlying integers `0, 1, 2`; the C `switch` has a
  `default:` branch, so the model is total over all `Nat` status values.
  Spec names: Synced = `timeSet`, StaleSync = `timeNeedsSync`,
  Unsynced = `timeNotSet`.
* The external TimeLib accessors (`year`, `month`, ..., applied after
  `myTZ.toLocal`) are the boundary of the embedding: the encoder receives
  the seven extracted components as a `TimeSnapshot`.  The subtraction
  `year(t) - 2000` performed by the source is inside the embedding.
* FreeRTOS ticks are `Nat` with explicit `% 2^32` where `TickType_t`
  (uint32) arithmetic can wrap.
-/

namespace IF482

/-- TimeLib `timeStatus_t` value `timeNotSet` (spec: Unsynced). -/
def timeNotSet : Nat := 0

/-- TimeLib `timeStatus_t` value `timeNeedsSync` (spec: StaleSync). -/
def timeNeedsSync : Nat := 1

/-- TimeLib `timeStatus_t` value `timeSet` (spec: Synced). -/
def timeSet : Nat := 2

/-- The seven date/time components the source reads from TimeLib after
converting `tt` to local time: `year(t)`, `month(t)`, `day(t)`,
`weekday(t)`, `hour(t)`, `minute(t)`, `second(t)`.  `year` is the full
calendar year (e.g. 2016), as TimeLib returns it. -/
structure TimeSnapshot where
  year : Nat
  month : Nat
  day : Nat
  weekday : Nat
  hour : Nat
  minute : Nat
  second : Nat
deriving DecidableEq, Repr

/-- ASCII codes of the decimal representation of `n` (what `%u` prints). -/
def asciiDigits (n : Nat) : List Nat := (Nat.toDigits 10 n).map Char.toNat

/-- Format `%0wu`: decimal representation of `n`, zero-padded on the left to a
minimum width `w`. -/
def fmtPad (w n : Nat) : List Nat :=
  List.replicate (w - (asciiDigits n).length) 48 ++ asciiDigits n

/-- Byte codes of a string literal (for stating telegrams). -/
def strBytes (s : String) : List Nat := s.toList.map Char.toNat

/-- The formatted digit fields of the confident-time branch:
`snprintf(buf, sizeof(buf), "%02u%02u%02u%1u%02u%02u%02u", year(t) - 2000,
month(t), day(t), weekday(t), hour(t), minute(t), second(t))`, before
truncation to the 13 characters that fit in `buf[14]`. -/
def syncedDigits (t : TimeSnapshot) : List Nat :=
  fmtPad 2 (t.year - 2000) ++ fmtPad 2 t.month ++ fmtPad 2 t.day ++
    fmtPad 1 t.weekday ++ fmtPad 2 t.hour ++ fmtPad 2 t.minute ++
    fmtPad 2 t.second

/-- The placeholder digit fields `"000000F000000"` of the
no-confident-time branch. -/
def placeholderDigits : List Nat :=
  [48, 48, 48, 48, 48, 48, 70, 48, 48, 48, 48, 48, 48]

/-- The monitoring character chosen by the `switch (timeStatus())`:
`timeSet -> 'A'`, `timeNeedsSync -> 'M'`, `default -> '?'`. -/
def monChar (status : Nat) : Nat :=
  if status = timeSet then 65
  else if status = timeNeedsSync then 77
  else 63

/-- Encoder `IF482_Out`: builds the telegram bytes returned (and later printed to
the serial sink) by the source.  `buf` is the 13-byte digit field buffer
(`char buf[14]`, filled by `snprintf`), and the final
`snprintf(out, sizeof(out), "O%cL%s\r", mon, buf)` writes into
`char out[17]`, i.e. keeps at most 16 characters of the ideal
`'O' mon 'L' buf CR` sequence. -/
def IF482_Out (t : TimeSnapshot) (status : Nat) : List Nat :=
  let buf : List Nat :=
    if status = timeSet ∨ status = timeNeedsSync then (syncedDigits t).take 13
    else placeholderDigits.take 13
  ([79, monChar status, 76] ++ buf ++ [13]).take 16

/-- Shot offset `const TickType_t shotTime = xTaskGetTickCount() - startTime - timeOffset;`
computed once in `if482_loop` between phase lock and the steady-state loop:
uint32 wraparound subtraction of the task start tick and the transmit
lead-time (`pdMS_TO_TICKS(IF482_OFFSET)`) from the tick at phase lock. -/
def shotTime (startTime lockTime timeOffset : Nat) : Nat :=
  (((lockTime : Int) - (startTime : Int) - (timeOffset : Int)) % (2 ^ 32)).toNat

/-- One transmission produced by the steady-state loop body: the absolute
tick at which `vTaskDelayUntil` releases the task, the shot offset that
produced that deadline, and the printed telegram bytes. -/
structure Transmission where
  deadline : Nat
  offsetUsed : Nat
  telegram : List Nat
deriving DecidableEq, Repr

/-- One iteration of the steady-state `for (;;)` loop of `if482_loop` for a
pulse notification carrying tick `T` (posted by `IF482IRQ` via
`xTaskNotifyFromISR(IF482Task, xTaskGetTickCountFromISR(), ...)`):
`vTaskDelayUntil(&wakeTime, shotTime)` sleeps until the absolute tick
`T + shotTime` (uint32 tick arithmetic), then
`IF482.print(IF482_Out(now() + 1))` encodes one second past the current
time and pushes the telegram.  `now` maps a tick to the TimeLib `time_t`
at that tick; `snapOf` maps a `time_t` to its local-time components
(`myTZ.toLocal` plus the TimeLib accessors). -/
def if482_step (now : Nat → Nat) (snapOf : Nat → TimeSnapshot)
    (status shotOffset T : Nat) : Transmission :=
  let d : Nat := (T + shotOffset) % 2 ^ 32
  ⟨d, shotOffset, IF482_Out (snapOf (now d + 1)) status⟩

/-- The steady-state loop of `if482_loop` run over a finite list of pulse
notifications: `xTaskNotifyWait` delivers exactly one wake per pulse tick,
and each wake executes one loop body. -/
def if482_run (now : Nat → Nat) (snapOf : Nat → TimeSnapshot)
    (status shotOffset : Nat) (pulses : List Nat) : List Transmission :=
  pulses.map (if482_step now snapOf status shotOffset)

/-- Observable side effects of `if482_init`, in program order. -/
inductive InitEvent where
  | taskCreated
  | serialOpened
  | rtcConfigured
  | irqAttached
  | errorLogged
deriving DecidableEq, Repr

/-- Initializer `if482_init` (the `RTC_INT` build): configures the RTC-INT pin, creates
the `if482loop` task, opens the serial interface, then takes the I2C mutex
to configure the DS3231 1 Hz square-wave pin.  If the mutex is busy it logs
an error and returns `0` (failure) — note the task was already created and
the RTC interrupt is never attached.  On success it attaches `IF482IRQ` to
the falling edge of `RTC_INT` and returns `1`.  Result: the returned code
paired with the side effects that occurred, in order. -/
def if482_init (i2cAvailable : Bool) : Nat × List InitEvent :=
  if i2cAvailable then
    (1, [InitEvent.taskCreated, InitEvent.serialOpened,
         InitEvent.rtcConfigured, InitEvent.irqAttached])
  else
    (0, [InitEvent.taskCreated, InitEvent.serialOpened,
         InitEvent.errorLogged])

/-- Format `%02u` of a value below 100 prints exactly the two zero-padded decimal
digits. -/
theorem fmtPad_two_eq : ∀ n : Nat, n < 100 → fmtPad 2 n = [48 + n / 10, 48 + n % 10] := by
  decide

/-- Format `%1u` of a value below 10 prints exactly its one decimal digit. -/
theorem fmtPad_one_eq : ∀ n : Nat, n < 10 → fmtPad 1 n = [48 + n] := by
  decide

/-- When the digit buffer holds exactly 13 bytes, the telegram is the
header `'O' mon 'L'` followed by the digit buffer — the closing CR of the
format string is cut off by the 17-byte `out` buffer. -/
theorem IF482_Out_synced (t : TimeSnapshot) (status : Nat)
    (hs : status = timeSet ∨ status = timeNeedsSync)
    (hlen : (syncedDigits t).length = 13) :
    IF482_Out t status = [79, monChar status, 76] ++ syncedDigits t := by
  unfold IF482_Out
  rw [if_pos hs, List.take_of_length_le hlen.le]
  show List.take 16 ([79, monChar status, 76] ++ syncedDigits t ++ [13]) =
    [79, monChar status, 76] ++ syncedDigits t
  rw [List.take_left' (by simp [hlen])]

/-- C1: the claim says every telegram is exactly 17 bytes ending in CR
(0x0D).  The code's `snprintf(out, sizeof(out), "O%cL%s\r", ...)` into
`char out[17]` truncates the 17-character telegram to 16 characters, so the
returned telegram has 16 bytes and its last byte is a digit, not CR —
contradicting the telegram format table in the source file's own header
comment (byte 17 = CR 0D).  Evaluated at the worked example time
2016-08-06 (weekday 7) 17:04:00, for both a synced and an unsynced status. -/
theorem if482_c1_truncated_telegram :
    (IF482_Out ⟨2016, 8, 6, 7, 17, 4, 0⟩ timeSet).length = 16 ∧
    (IF482_Out ⟨2016, 8, 6, 7, 17, 4, 0⟩ timeSet).getLast? = some 48 ∧
    (IF482_Out ⟨2016, 8, 6, 7, 17, 4, 0⟩ timeSet).getLast? ≠ some 13 ∧
    (IF482_Out ⟨2016, 8, 6, 7, 17, 4, 0⟩ timeNotSet).length = 16 ∧
    (IF482_Out ⟨2016, 8, 6, 7, 17, 4, 0⟩ timeNotSet).getLast? ≠ some 13 := by
  decide

/-- C2 counterexample: with the I2C bus unavailable, `if482_init` does
return the failure code 0, but the `if482loop` task has already been
created (`xTaskCreatePinnedToCore` runs before the bus check), refuting
"no if482loop task exists". -/
theorem if482_c2_task_created_on_failure :
    (if482_init false).1 = 0 ∧ InitEvent.taskCreated ∈ (if482_init false).2 := by
  decide

/-- C2 amended: with the I2C bus unavailable, `if482_init` returns the
failure code 0 and never attaches the RTC pulse interrupt; the `if482loop`
task was already created before the check, but with the interrupt never
armed there are no pulse notifications, and zero pulses produce zero
transmitted telegrams. -/
theorem if482_c2_failure_no_irq :
    (if482_init false).1 = 0 ∧
    InitEvent.irqAttached ∉ (if482_init false).2 ∧
    InitEvent.taskCreated ∈ (if482_init false).2 ∧
    if482_run (fun _ => 0) (fun _ => ⟨0, 0, 0, 0, 0, 0, 0⟩) timeNotSet 0 [] = [] := by
  decide

/-- C3 counterexample: a valid phase-lock situation violating the claimed
bound.  The task starts at tick 0, the second rolls over 10 ticks later
(lock tick 10), the lead-time constant is 20 ticks, one period is 1000
ticks (so lead < period).  The uint32 subtraction `10 - 0 - 20` wraps to
`2^32 - 10`, which is not below one period; the loop body still uses it
(a transmission is produced), with no configuration-error path anywhere. -/
theorem if482_c3_offset_underflow :
    (20 : Nat) < 1000 ∧
    ¬ shotTime 0 10 20 < 1000 ∧
    (if482_run (fun _ => 0) (fun _ => ⟨0, 0, 0, 0, 0, 0, 0⟩) timeNotSet
      (shotTime 0 10 20) [0]).length = 1 := by
  decide

/-- C3 amended: `shotOffset` lies in `[0, onePeriod)` exactly when the
phase-lock tick falls at least `leadTime` and less than
`leadTime + onePeriod` ticks after task start; the code performs no range
check, so outside that window the wrapped uint32 value is used silently. -/
theorem if482_c3_offset_in_window (start lock lead period : Nat)
    (hlock : start + lead ≤ lock) (hwin : lock < start + lead + period)
    (hp : period ≤ 2 ^ 32) :
    shotTime start lock lead < period := by
  rw [shotTime]
  rw [Int.emod_eq_of_lt (by omega) (by omega)]
  omega

theorem if482_c3_offset_in_window_witness :
    0 + 20 ≤ 500 ∧ 500 < 0 + 20 + 1000 ∧ 1000 ≤ 2 ^ 32 ∧
    shotTime 0 500 20 < 1000 :=
  ⟨by decide, by decide, by norm_num,
    if482_c3_offset_in_window 0 500 20 1000 (by decide) (by decide) (by norm_num)⟩

/-- C4: for a valid snapshot and a synced or stale-synced status, the 13
digit bytes of the telegram (bytes 4–16, i.e. everything after the 3-byte
header in the truncated 16-byte output) are exactly the zero-padded decimal
representations of year mod 100, month, day, weekday, hour, minute and
second, with weekday one digit wide and the rest two digits wide. -/
theorem if482_c4_digit_fields (t : TimeSnapshot) (status : Nat)
    (hs : status = timeSet ∨ status = timeNeedsSync)
    (hy1 : 2000 ≤ t.year) (hy2 : t.year ≤ 2099) (hmo : t.month ≤ 12)
    (hd : t.day ≤ 31) (hw : t.weekday ≤ 7) (hh : t.hour ≤ 23)
    (hmi : t.minute ≤ 59) (hse : t.second ≤ 59) :
    (IF482_Out t status).drop 3 =
      [48 + t.year % 100 / 10, 48 + t.year % 100 % 10,
       48 + t.month / 10, 48 + t.month % 10,
       48 + t.day / 10, 48 + t.day % 10,
       48 + t.weekday,
       48 + t.hour / 10, 48 + t.hour % 10,
       48 + t.minute / 10, 48 + t.minute % 10,
       48 + t.second / 10, 48 + t.second % 10] := by
  have e1 : fmtPad 2 (t.year - 2000) =
      [48 + t.year % 100 / 10, 48 + t.year % 100 % 10] := by
    have hy : t.year % 100 = t.year - 2000 := by omega
    rw [hy]
    exact fmtPad_two_eq _ (by omega)
  have e2 := fmtPad_two_eq t.month (by omega)
  have e3 := fmtPad_two_eq t.day (by omega)
  have e4 := fmtPad_one_eq t.weekday (by omega)
  have e5 := fmtPad_two_eq t.hour (by omega)
  have e6 := fmtPad_two_eq t.minute (by omega)
  have e7 := fmtPad_two_eq t.second (by omega)
  have hsd : syncedDigits t =
      [48 + t.year % 100 / 10, 48 + t.year % 100 % 10,
       48 + t.month / 10, 48 + t.month % 10,
       48 + t.day / 10, 48 + t.day % 10,
       48 + t.weekday,
       48 + t.hour / 10, 48 + t.hour % 10,
       48 + t.minute / 10, 48 + t.minute % 10,
       48 + t.second / 10, 48 + t.second % 10] := by
    rw [syncedDigits, e1, e2, e3, e4, e5, e6, e7]
    rfl
  rw [IF482_Out_synced t status hs (by rw [hsd]; rfl), hsd,
    List.drop_left' (by rfl)]

theorem if482_c4_digit_fields_witness :
    ((2 : Nat) = timeSet ∨ (2 : Nat) = timeNeedsSync) ∧
    (IF482_Out ⟨2016, 8, 6, 7, 17, 4, 0⟩ 2).drop 3 =
      [48 + 2016 % 100 / 10, 48 + 2016 % 100 % 10,
       48 + 8 / 10, 48 + 8 % 10, 48 + 6 / 10, 48 + 6 % 10, 48 + 7,
       48 + 17 / 10, 48 + 17 % 10, 48 + 4 / 10, 48 + 4 % 10,
       48 + 0 / 10, 48 + 0 % 10] :=
  ⟨Or.inl rfl,
    if482_c4_digit_fields ⟨2016, 8, 6, 7, 17, 4, 0⟩ 2 (Or.inl rfl)
      (by decide) (by decide) (by decide) (by decide) (by decide)
      (by decide) (by decide) (by decide)⟩

/-- With any status other than `timeSet` and `timeNeedsSync` the telegram
is the fixed 16-byte degraded telegram, regardless of the snapshot. -/
theorem IF482_Out_unsynced (t : TimeSnapshot) (status : Nat)
    (h1 : status ≠ timeSet) (h2 : status ≠ timeNeedsSync) :
    IF482_Out t status = [79, 63, 76] ++ placeholderDigits := by
  unfold IF482_Out
  rw [if_neg (by rintro (h | h) <;> [exact h1 h; exact h2 h]),
    monChar, if_neg h1, if_neg h2]
  rfl

/-- C5: with status `timeNotSet` (Unsynced) the encoder ignores the time
entirely — any two snapshots give the same telegram — and bytes 4–16 of
that telegram are the fixed placeholder `"000000F000000"`. -/
theorem if482_c5_unsynced_constant (t1 t2 : TimeSnapshot) :
    IF482_Out t1 timeNotSet = IF482_Out t2 timeNotSet ∧
    (IF482_Out t1 timeNotSet).drop 3 = strBytes "000000F000000" := by
  rw [IF482_Out_unsynced t1 timeNotSet (by decide) (by decide),
    IF482_Out_unsynced t2 timeNotSet (by decide) (by decide)]
  exact ⟨rfl, by decide⟩

/-- C6: the steady-state loop produces exactly one transmission per pulse
notification (N pulses, N telegrams), and the transmission for a pulse
carrying tick `T` is released at the absolute deadline `T + shotOffset`
(uint32 tick arithmetic) with the telegram encoding `now() + 1` — one
second past the time read at the shot instant. -/
theorem if482_c6_one_telegram_per_pulse (now : Nat → Nat)
    (snapOf : Nat → TimeSnapshot) (status shotOffset : Nat)
    (pulses : List Nat) :
    (if482_run now snapOf status shotOffset pulses).length = pulses.length ∧
    ∀ (i T : Nat), pulses[i]? = some T →
      (if482_run now snapOf status shotOffset pulses)[i]? =
        some (Transmission.mk ((T + shotOffset) % 2 ^ 32) shotOffset
          (IF482_Out (snapOf (now ((T + shotOffset) % 2 ^ 32) + 1)) status)) := by
  constructor
  · simp [if482_run]
  · intro i T hT
    simp [if482_run, List.getElem?_map, hT, if482_step]

theorem if482_c6_one_telegram_per_pulse_witness :
    ([100, 200] : List Nat)[0]? = some 100 ∧
    (if482_run (fun _ => 42) (fun _ => ⟨2016, 8, 6, 7, 17, 4, 0⟩)
        timeSet 5 [100, 200]).length = 2 ∧
    (if482_run (fun _ => 42) (fun _ => ⟨2016, 8, 6, 7, 17, 4, 0⟩)
        timeSet 5 [100, 200])[0]? =
      some ⟨(100 + 5) % 2 ^ 32, 5,
        IF482_Out ⟨2016, 8, 6, 7, 17, 4, 0⟩ timeSet⟩ :=
  ⟨by decide,
    (if482_c6_one_telegram_per_pulse (fun _ => 42)
      (fun _ => ⟨2016, 8, 6, 7, 17, 4, 0⟩) timeSet 5 [100, 200]).1,
    (if482_c6_one_telegram_per_pulse (fun _ => 42)
      (fun _ => ⟨2016, 8, 6, 7, 17, 4, 0⟩) timeSet 5 [100, 200]).2 0 100
      (by decide)⟩

/-- C7: when the uint32 subtraction does not wrap (the phase lock happened
at least `lead` ticks after task start, within the uint32 range),
`shotTime` equals the plain difference (phase-lock tick) − (start tick) −
(lead-time constant); it is computed once before the steady-state loop,
and every transmission of the whole run uses that same unmodified value. -/
theorem if482_c7_shot_offset_fixed (start lock lead : Nat)
    (h1 : start + lead ≤ lock) (h2 : lock - start - lead < 2 ^ 32)
    (now : Nat → Nat) (snapOf : Nat → TimeSnapshot) (status : Nat)
    (pulses : List Nat) :
    shotTime start lock lead = lock - start - lead ∧
    ∀ tr ∈ if482_run now snapOf status (shotTime start lock lead) pulses,
      tr.offsetUsed = shotTime start lock lead := by
  constructor
  · rw [shotTime, Int.emod_eq_of_lt (by omega) (by push_cast; omega)]
    omega
  · intro tr htr
    rw [if482_run, List.mem_map] at htr
    obtain ⟨T, _, rfl⟩ := htr
    rfl

theorem if482_c7_shot_offset_fixed_witness :
    0 + 20 ≤ 500 ∧ 500 - 0 - 20 < 2 ^ 32 ∧
    (shotTime 0 500 20 = 500 - 0 - 20 ∧
      ∀ tr ∈ if482_run (fun _ => 0) (fun _ => ⟨2016, 8, 6, 7, 17, 4, 0⟩)
          timeSet (shotTime 0 500 20) [1000, 2000],
        tr.offsetUsed = shotTime 0 500 20) :=
  ⟨by decide, by norm_num,
    if482_c7_shot_offset_fixed 0 500 20 (by decide) (by norm_num)
      (fun _ => 0) (fun _ => ⟨2016, 8, 6, 7, 17, 4, 0⟩) timeSet [1000, 2000]⟩

/-- C8: byte 2 of the telegram is the monitoring character: 'A' (65) when
the status is `timeSet` (Synced), 'M' (77) when it is `timeNeedsSync`
(StaleSync), and '?' (63) when it is `timeNotSet` (Unsynced), for every
snapshot. -/
theorem if482_c8_monitoring_char (t : TimeSnapshot) :
    (IF482_Out t timeSet)[1]? = some 65 ∧
    (IF482_Out t timeNeedsSync)[1]? = some 77 ∧
    (IF482_Out t timeNotSet)[1]? = some 63 := by
  refine ⟨?_, ?_, ?_⟩ <;>
    · unfold IF482_Out
      rw [List.getElem?_take_of_lt (by omega),
        List.getElem?_append_left (by simp)]
      rfl

/-- C9: at the worked example — Synced, 2016-08-06, weekday digit 6,
17:04:00 — the code emits the 16 bytes `"OAL1608066170400"` (header and
digit fields exactly as the claim decomposes them) but not the claimed
17-byte telegram ending in CR: the terminator is truncated away by the
17-byte `out` buffer. -/
theorem if482_c9_worked_example :
    IF482_Out ⟨2016, 8, 6, 6, 17, 4, 0⟩ timeSet = strBytes "OAL1608066170400" ∧
    IF482_Out ⟨2016, 8, 6, 6, 17, 4, 0⟩ timeSet ≠
      strBytes "OAL1608066170400" ++ [13] := by
  decide

/-- C10: the encoder is total over the whole status type: any status other
than `timeSet` and `timeNeedsSync` (including values outside the TimeLib
enum) falls into the switch's `default` and the `else` branch, producing
exactly the Unsynced telegram — monitoring character '?' (63) and the
fixed placeholder digit fields. -/
theorem if482_c10_default_status (t : TimeSnapshot) (status : Nat)
    (h1 : status ≠ timeSet) (h2 : status ≠ timeNeedsSync) :
    IF482_Out t status = IF482_Out t timeNotSet ∧
    (IF482_Out t status)[1]? = some 63 ∧
    (IF482_Out t status).drop 3 = strBytes "000000F000000" := by
  rw [IF482_Out_unsynced t status h1 h2,
    IF482_Out_unsynced t timeNotSet (by decide) (by decide)]
  exact ⟨rfl, by decide, by decide⟩

theorem if482_c10_default_status_witness :
    (7 : Nat) ≠ timeSet ∧ (7 : Nat) ≠ timeNeedsSync ∧
    (IF482_Out ⟨2016, 8, 6, 7, 17, 4, 0⟩ 7 =
        IF482_Out ⟨2016, 8, 6, 7, 17, 4, 0⟩ timeNotSet ∧
      (IF482_Out ⟨2016, 8, 6, 7, 17, 4, 0⟩ 7)[1]? = some 63 ∧
      (IF482_Out ⟨2016, 8, 6, 7, 17, 4, 0⟩ 7).drop 3 =
        strBytes "000000F000000") :=
  ⟨by decide, by decide,
    if482_c10_default_status ⟨2016, 8, 6, 7, 17, 4, 0⟩ 7 (by decide) (by decide)⟩

end IF482
